import Mathlib

/-!
Verification of the image-generation flow of `Visionary-ai-v2`
(`src/ai/flows/generate-image-from-text.ts`).

The source file holds two revisions of `generateImageFlow`; the embedding
keeps both (suffix `V1` for the earlier revision, lines 29-107, and `V2` for
the later one, lines 137-237).  JavaScript strings are modelled by `String`,
string falsiness by an emptiness test, missing fields by `Option`, a
`candidates` field that is missing or not an array by `none`, and the thrown
errors of the flow by `Except String`.
-/

/-- Boolean test that the first list is an initial run of the second
(character-level model of JavaScript `String.prototype.startsWith`). -/
def startsWithL : List Char → List Char → Bool
  | [], _ => true
  | _ :: _, [] => false
  | a :: as, b :: bs => a == b && startsWithL as bs

/-- JavaScript `s.startsWith(p)`. -/
def strStartsWith (s p : String) : Bool := startsWithL p.data s.data

/-- Boolean test that `pat` occurs contiguously somewhere in the second list. -/
def occursIn (pat : List Char) : List Char → Bool
  | [] => startsWithL pat []
  | c :: rest => startsWithL pat (c :: rest) || occursIn pat rest

/-- The characters of `t` occur contiguously inside `s`. -/
def SubStr (t s : String) : Prop := occursIn t.data s.data = true

instance (t s : String) : Decidable (SubStr t s) :=
  inferInstanceAs (Decidable (_ = true))

/-- JavaScript `s.substring(0, n)` (the first `n` characters). -/
def strTake (s : String) (n : Nat) : String := String.mk (s.data.take n)

/-- The last `n` characters of `s`, used to tell classifier messages apart. -/
def lastChars (n : Nat) (s : String) : List Char := s.data.reverse.take n

/-- The `url` field of a response media object: a string, or some value that
fails the source's `typeof media.url === 'string'` test (missing included). -/
inductive MediaUrl where
  | str (s : String)
  | notStr
  deriving DecidableEq, Repr

/-- The zero-or-one `media` object of a model response. -/
structure Media where
  url : MediaUrl
  deriving DecidableEq, Repr

/-- One entry of the response's `candidates` array. -/
structure Candidate where
  finishReason : Option String
  finishMessage : Option String
  deriving DecidableEq, Repr

/-- The optional top-level `error` object of a response. -/
structure ErrorInfo where
  message : Option String
  status : Option String
  code : Option Nat
  deriving DecidableEq, Repr

/-- The untrusted response envelope returned by `ai.generate`.
`candidates = none` models a `candidates` field that is missing or fails
`Array.isArray`; `error = none` a falsy `error` field. -/
structure ModelResponse where
  media : Option Media
  candidates : Option (List Candidate)
  error : Option ErrorInfo
  deriving DecidableEq, Repr

/-- The success value `{ imageUrl }` of the flow. -/
structure GenerationResult where
  imageUrl : String
  deriving DecidableEq, Repr

/-- The request accepted by the flow; `aspectRatio = none` models an absent
field (the source also treats the falsy empty string as absent). -/
structure GenerateImageInput where
  prompt : String
  aspectRatio : Option String
  deriving DecidableEq, Repr

/-- `input.aspectRatio || '1:1'` (both revisions). -/
def aspectRatioOr1x1 (input : GenerateImageInput) : String :=
  match input.aspectRatio with
  | some a => if a ≠ "" then a else "1:1"
  | none => "1:1"

/-- The earlier revision's composed prompt (line 37):
``` `${input.prompt}, aspect ratio ${input.aspectRatio || '1:1'}` ```. -/
def fullPromptV1 (input : GenerateImageInput) : String :=
  input.prompt ++ ", aspect ratio " ++ aspectRatioOr1x1 input

/-- The fixed, ordered quality-descriptor list of the later revision
(lines 145-159). -/
def desiredQualities : List String :=
  ["outstanding", "eye-catching", "vibrant", "youthful", "attention-grabbing",
   "attractive", "hookable", "photorealistic", "highly detailed",
   "high quality", "professional photography", "dynamic composition",
   "cinematic lighting"]

/-- `desiredQualities.join(", ")` (line 159). -/
def desiredQualitiesJoined : String := String.intercalate ", " desiredQualities

/-- The later revision's composed prompt (line 161). -/
def fullPromptV2 (input : GenerateImageInput) : String :=
  "Image requirements: " ++ desiredQualitiesJoined ++ ". User prompt: \"" ++
    input.prompt ++ "\". Aspect ratio: " ++ aspectRatioOr1x1 input

/-- The success test of the earlier revision (line 55):
`media && typeof media.url === 'string' && media.url.startsWith('data:image/')`,
returning `{ imageUrl: media.url }` when it passes. -/
def validateMediaV1 (r : ModelResponse) : Option GenerationResult :=
  match r.media with
  | some media =>
    match media.url with
    | MediaUrl.str url =>
      if strStartsWith url "data:image/" then some { imageUrl := url } else none
    | MediaUrl.notStr => none
  | none => none

/-- The success test of the later revision (line 181), character for
character the same as the earlier one. -/
def validateMediaV2 (r : ModelResponse) : Option GenerationResult :=
  match r.media with
  | some media =>
    match media.url with
    | MediaUrl.str url =>
      if strStartsWith url "data:image/" then some { imageUrl := url } else none
    | MediaUrl.notStr => none
  | none => none

/-- The candidate-specific fragment of the earlier revision's classifier
(lines 70-79).  The truthiness test `firstCandidate.finishReason && ...`
becomes a non-emptiness test on the optional string. -/
def candidateSpecificMessageV1 (firstCandidate : Candidate) : String :=
  match firstCandidate.finishReason with
  | some finishReason =>
    if finishReason ≠ "" ∧ finishReason ≠ "STOP" ∧ finishReason ≠ "UNSPECIFIED" then
      "Model processing stopped (reason: " ++ finishReason ++
        (match firstCandidate.finishMessage with
         | some finishMessage =>
           if finishMessage ≠ "" then " - \"" ++ finishMessage ++ "\"" else ""
         | none => "") ++ ")."
    else
      "The model did not provide a specific reason for not returning an image."
  | none =>
    "The model did not provide a specific reason for not returning an image."

/-- The earlier revision's `detailForError` (lines 63-92), built only when the
success test failed. -/
def detailForErrorV1 (r : ModelResponse) : String :=
  match r.media with
  | none =>
    "The AI model did not return any media content." ++
      (match r.candidates with
       | some (firstCandidate :: _) =>
         " " ++ candidateSpecificMessageV1 firstCandidate ++
           " This often relates to safety filters, prompt content, or API/billing issues. Please check server logs for the full AI response."
       | some [] =>
         " The model returned no candidates/choices in its response. This could indicate a problem with the prompt or service. Check server logs."
       | none =>
         " The AI response structure was incomplete or unexpected (e.g., missing or invalid \x27candidates\x27 data). Check server logs for the raw response and verify API key/billing.")
  | some media =>
    match media.url with
    | MediaUrl.notStr => "The AI model returned media, but its URL is not a string."
    | MediaUrl.str url =>
      if strStartsWith url "data:image/" then
        "An unknown issue occurred with the media data after it was received."
      else
        "The AI model returned a URL, but it\x27s not a valid image data URI. Received: \x27" ++
          strTake url 30 ++ "...\x27"

/-- The candidate-specific fragment of the later revision's classifier
(lines 197-206). -/
def candidateSpecificMessageV2 (firstCandidate : Candidate) : String :=
  match firstCandidate.finishReason with
  | some finishReason =>
    if finishReason ≠ "" ∧ finishReason ≠ "STOP" ∧ finishReason ≠ "UNSPECIFIED" then
      "Model processing stopped (reason: " ++ finishReason ++
        (match firstCandidate.finishMessage with
         | some finishMessage =>
           if finishMessage ≠ "" then " - \"" ++ finishMessage ++ "\"" else ""
         | none => "") ++ ")."
    else
      "The model provided candidate(s) but no specific error/finish reason for not returning an image."
  | none =>
    "The model provided candidate(s) but no specific error/finish reason for not returning an image."

/-- The message assembled from a top-level `error` object by the later
revision (lines 188-190): the `message` (or a fallback when falsy), then
` (Status: ...)` when `status` is truthy, then ` (Code: ...)` when `code` is
truthy (`0` is falsy for a JavaScript number). -/
def errMessageV2 (errDetails : ErrorInfo) : String :=
  (match errDetails.message with
   | some m => if m ≠ "" then m else "Unknown error from AI service"
   | none => "Unknown error from AI service") ++
  (match errDetails.status with
   | some st => if st ≠ "" then " (Status: " ++ st ++ ")" else ""
   | none => "") ++
  (match errDetails.code with
   | some cd => if cd ≠ 0 then " (Code: " ++ Nat.repr cd ++ ")" else ""
   | none => "")

/-- The later revision's `detailForError` (lines 184-220): the top-level
error object wins, then the no-media cases split on `candidates`, then the
malformed-media cases. -/
def detailForErrorV2 (r : ModelResponse) : String :=
  match r.error with
  | some errDetails =>
    "The AI service returned a direct error: " ++ errMessageV2 errDetails ++
      ". Please critically review your GOOGLE_API_KEY, ensure billing is active, and required Google Cloud APIs (like Vertex AI) are enabled. Check server logs for the full response."
  | none =>
    match r.media with
    | none =>
      "The AI model did not return any media content." ++
        (match r.candidates with
         | some (firstCandidate :: _) =>
           " " ++ candidateSpecificMessageV2 firstCandidate ++
             " This often relates to safety filters or prompt content. Also, re-verify API key/billing. Please check server logs."
         | some [] =>
           " The model returned no candidates/choices in its response (e.g., all candidates might have been filtered by safety settings). This could indicate a problem with the prompt content or very strict safety settings. Check server logs."
         | none =>
           " The AI response was incomplete or structured unexpectedly (e.g., missing \x27candidates\x27 data). This strongly suggests an issue with your GOOGLE_API_KEY, billing status, or enabled Google Cloud APIs. Please verify these and check server logs for the raw response.")
    | some media =>
      match media.url with
      | MediaUrl.notStr =>
        "The AI model returned media, but its URL is not a string. Check server logs for the response structure."
      | MediaUrl.str url =>
        if strStartsWith url "data:image/" then
          "An unknown issue occurred with the image data after it was received from the AI. Check server logs."
        else
          "The AI model returned a URL, but it\x27s not a valid image data URI. Received: \x27" ++
            strTake url 60 ++ "...\x27. Check server logs."

/-- The catch block shared, character for character, by both revisions
(lines 96-105 and 228-235): an error whose message starts with
`Image Generation Failed:` is rethrown unchanged, anything else is wrapped
as `AI Service Error: ...` (with a fallback for a falsy message). -/
def rethrowOrWrap (message : Option String) : String :=
  match message with
  | some m =>
    if strStartsWith m "Image Generation Failed:" then m
    else "AI Service Error: " ++
      (if m ≠ "" then m else "An unknown error occurred while communicating with the AI model.")
  | none =>
    "AI Service Error: " ++ "An unknown error occurred while communicating with the AI model."

/-- The earlier revision's flow body applied to a response the model call
returned: success when the media test passes, otherwise the classified
error is thrown and travels through the catch block. -/
def generateImageFlowV1Resp (r : ModelResponse) : Except String GenerationResult :=
  match validateMediaV1 r with
  | some result => Except.ok result
  | none =>
    Except.error (rethrowOrWrap (some ("Image Generation Failed: " ++ detailForErrorV1 r)))

/-- The later revision's flow body applied to a response the model call
returned. -/
def generateImageFlowV2Resp (r : ModelResponse) : Except String GenerationResult :=
  match validateMediaV2 r with
  | some result => Except.ok result
  | none =>
    Except.error (rethrowOrWrap (some ("Image Generation Failed: " ++ detailForErrorV2 r)))

/-- What the awaited `ai.generate` call did: returned a response envelope, or
threw an exception carrying an optional message. -/
inductive InvokeOutcome where
  | response (r : ModelResponse)
  | thrown (message : Option String)
  deriving DecidableEq, Repr

/-- The later revision's whole flow body: an exception thrown by the model
call is handled by the same catch block as the flow's own classified error. -/
def generateImageFlowV2 (o : InvokeOutcome) : Except String GenerationResult :=
  match o with
  | InvokeOutcome.response r => generateImageFlowV2Resp r
  | InvokeOutcome.thrown m => Except.error (rethrowOrWrap m)

/-- Modelled from the spec: the fail-fast configuration error message, naming
the missing variable. -/
def missingCredentialMessage : String :=
  "Configuration Error: required credential GOOGLE_API_KEY is not set in the environment."

/-- Modelled from the spec: the required-credential precondition enforced by
the application bootstrap (the genkit configuration module the flow imports
as `@/ai/genkit`, which is not among the repository files under `src/`).
The spec requires one credential, `GOOGLE_API_KEY`, to be present and
non-empty in the process environment, and a fail-fast configuration error
naming the missing variable before any model call. -/
def checkApiCredential (env : List (String × String)) : Option String :=
  match env.lookup "GOOGLE_API_KEY" with
  | some v => if v ≠ "" then none else some missingCredentialMessage
  | none => some missingCredentialMessage

/-- Modelled from the spec: the orchestration with its configuration
precondition.  The second component counts how many times the model invoker
ran, so that fail-fast can be stated as a zero call count. -/
def generateWithConfig (env : List (String × String)) (o : InvokeOutcome) :
    Except String GenerationResult × Nat :=
  match checkApiCredential env with
  | some msg => (Except.error msg, 0)
  | none => (generateImageFlowV2 o, 1)

theorem startsWithL_refl (p : List Char) : startsWithL p p = true := by
  induction p with
  | nil => rfl
  | cons a as ih => simp [startsWithL, ih]

theorem startsWithL_append (p l m : List Char) (h : startsWithL p l = true) :
    startsWithL p (l ++ m) = true := by
  induction p generalizing l with
  | nil => rfl
  | cons a as ih =>
    cases l with
    | nil => simp [startsWithL] at h
    | cons b bs =>
      simp only [startsWithL, Bool.and_eq_true] at h ⊢
      exact ⟨h.1, ih bs h.2⟩

theorem occursIn_of_startsWithL (p l : List Char) (h : startsWithL p l = true) :
    occursIn p l = true := by
  cases l with
  | nil => exact h
  | cons c rest => simp [occursIn, h]

theorem occursIn_nil_pat (l : List Char) : occursIn [] l = true := by
  cases l with
  | nil => rfl
  | cons c rest => simp [occursIn, startsWithL]

theorem occursIn_cons (p l : List Char) (c : Char) (h : occursIn p l = true) :
    occursIn p (c :: l) = true := by
  simp [occursIn, h]

theorem occursIn_append_left (p a l : List Char) (h : occursIn p l = true) :
    occursIn p (a ++ l) = true := by
  induction a with
  | nil => exact h
  | cons c cs ih => exact occursIn_cons p (cs ++ l) c ih

theorem occursIn_append_right (p l m : List Char) (h : occursIn p l = true) :
    occursIn p (l ++ m) = true := by
  induction l with
  | nil =>
    cases p with
    | nil => exact occursIn_nil_pat m
    | cons a as => simp [occursIn, startsWithL] at h
  | cons c rest ih =>
    simp only [occursIn, Bool.or_eq_true] at h
    rcases h with h | h
    · exact occursIn_of_startsWithL _ _ (startsWithL_append p (c :: rest) m h)
    · exact occursIn_cons p (rest ++ m) c (ih h)

theorem subStr_self (t : String) : SubStr t t :=
  occursIn_of_startsWithL _ _ (startsWithL_refl _)

theorem subStr_empty (s : String) : SubStr "" s := occursIn_nil_pat s.data

theorem subStr_append_left (u : String) {t s : String} (h : SubStr t s) :
    SubStr t (u ++ s) := by
  unfold SubStr at h ⊢
  rw [String.data_append]
  exact occursIn_append_left _ _ _ h

theorem subStr_append_right (u : String) {t s : String} (h : SubStr t s) :
    SubStr t (s ++ u) := by
  unfold SubStr at h ⊢
  rw [String.data_append]
  exact occursIn_append_right _ _ _ h

theorem strStartsWith_append (s u p : String) (h : strStartsWith s p = true) :
    strStartsWith (s ++ u) p = true := by
  unfold strStartsWith at h ⊢
  rw [String.data_append]
  exact startsWithL_append _ _ _ h

theorem lastChars_append (a t : String) (n : Nat) (h : n ≤ t.data.length) :
    lastChars n (a ++ t) = lastChars n t := by
  unfold lastChars
  rw [String.data_append, List.reverse_append, List.take_append_of_le_length]
  simpa using h

theorem ne_of_lastChars_ne {s₁ s₂ : String} (n : Nat)
    (h : lastChars n s₁ ≠ lastChars n s₂) : s₁ ≠ s₂ :=
  fun he => h (congrArg (lastChars n) he)

theorem rethrowOrWrap_classified (d : String) :
    rethrowOrWrap (some ("Image Generation Failed: " ++ d)) =
      "Image Generation Failed: " ++ d := by
  have h : strStartsWith ("Image Generation Failed: " ++ d) "Image Generation Failed:" = true :=
    strStartsWith_append "Image Generation Failed: " d "Image Generation Failed:" (by decide)
  simp [rethrowOrWrap, h]

theorem flowV1Resp_ok_iff (r : ModelResponse) (g : GenerationResult) :
    generateImageFlowV1Resp r = Except.ok g ↔ validateMediaV1 r = some g := by
  unfold generateImageFlowV1Resp
  cases hv : validateMediaV1 r <;> simp

theorem flowV2Resp_ok_iff (r : ModelResponse) (g : GenerationResult) :
    generateImageFlowV2Resp r = Except.ok g ↔ validateMediaV2 r = some g := by
  unfold generateImageFlowV2Resp
  cases hv : validateMediaV2 r <;> simp

theorem validateMediaV2_some_iff (r : ModelResponse) (g : GenerationResult) :
    validateMediaV2 r = some g ↔
      ∃ m s, r.media = some m ∧ m.url = MediaUrl.str s ∧
        strStartsWith s "data:image/" = true ∧ g = { imageUrl := s } := by
  unfold validateMediaV2
  rcases hmr : r.media with _ | m
  · simp
  · rcases hu : m.url with s | _
    · by_cases hp : strStartsWith s "data:image/" = true
      · simp only [hu, if_pos hp]
        constructor
        · intro h
          obtain rfl : ({ imageUrl := s } : GenerationResult) = g := Option.some.inj h
          exact ⟨m, s, rfl, hu, hp, rfl⟩
        · rintro ⟨m', s', hm', hu', hp', rfl⟩
          obtain rfl : m = m' := Option.some.inj hm'
          obtain rfl : s = s' := by
            rw [hu] at hu'
            exact (MediaUrl.str.inj hu')
          rfl
      · simp only [hu, if_neg hp]
        constructor
        · intro h
          exact absurd h (by simp)
        · rintro ⟨m', s', hm', hu', hp', rfl⟩
          obtain rfl : m = m' := Option.some.inj hm'
          obtain rfl : s = s' := by
            rw [hu] at hu'
            exact (MediaUrl.str.inj hu')
          exact absurd hp' hp
    · simp only [hu]
      constructor
      · intro h
        exact absurd h (by simp)
      · rintro ⟨m', s', hm', hu', hp', rfl⟩
        obtain rfl : m = m' := Option.some.inj hm'
        rw [hu] at hu'
        exact MediaUrl.noConfusion hu'

theorem validateMediaV2_none_iff (r : ModelResponse) :
    validateMediaV2 r = none ↔
      ¬ ∃ m s, r.media = some m ∧ m.url = MediaUrl.str s ∧
        strStartsWith s "data:image/" = true := by
  constructor
  · intro hv h
    obtain ⟨m, s, hm, hu, hp⟩ := h
    have hsome : validateMediaV2 r = some { imageUrl := s } :=
      (validateMediaV2_some_iff r { imageUrl := s }).mpr ⟨m, s, hm, hu, hp, rfl⟩
    rw [hv] at hsome
    exact Option.noConfusion hsome
  · intro hno
    cases hv : validateMediaV2 r with
    | none => rfl
    | some g =>
      obtain ⟨m, s, hm, hu, hp, _⟩ := (validateMediaV2_some_iff r g).mp hv
      exact absurd ⟨m, s, hm, hu, hp⟩ hno

/-- C1: for every response whose `media.url` is a string starting with
`data:image/`, both revisions of the flow return exactly
`{ imageUrl := media.url }`; the other fields of the response (`error`,
`candidates`, finish reasons) are left universally quantified, so none of
them affects the success outcome. -/
theorem c1_success_identity (r : ModelResponse) (m : Media) (s : String)
    (hm : r.media = some m) (hu : m.url = MediaUrl.str s)
    (hp : strStartsWith s "data:image/" = true) :
    generateImageFlowV2Resp r = Except.ok { imageUrl := s } ∧
    generateImageFlowV1Resp r = Except.ok { imageUrl := s } := by
  constructor
  · exact (flowV2Resp_ok_iff r _).mpr
      ((validateMediaV2_some_iff r _).mpr ⟨m, s, hm, hu, hp, rfl⟩)
  · exact (flowV1Resp_ok_iff r _).mpr
      ((validateMediaV2_some_iff r _).mpr ⟨m, s, hm, hu, hp, rfl⟩)

/-- A response populating every field at once, success URL included. -/
def c1SampleResponse : ModelResponse :=
  { media := some { url := MediaUrl.str "data:image/png;base64,AAA=" },
    candidates := some [{ finishReason := some "SAFETY", finishMessage := some "blocked" }],
    error := some { message := some "boom", status := some "INTERNAL", code := some 500 } }

/-- Witness for C1 at a concrete response with `error`, `candidates` and a
finish reason all present. -/
theorem c1_success_identity_witness :
    generateImageFlowV2Resp c1SampleResponse =
      Except.ok { imageUrl := "data:image/png;base64,AAA=" } ∧
    generateImageFlowV1Resp c1SampleResponse =
      Except.ok { imageUrl := "data:image/png;base64,AAA=" } :=
  c1_success_identity c1SampleResponse
    { url := MediaUrl.str "data:image/png;base64,AAA=" } "data:image/png;base64,AAA="
    rfl rfl (by decide)

/-- C2: the later revision constructs a success value only when `media.url`
is a string starting with `data:image/`, and that value is exactly
`{ imageUrl := media.url }`; in every other case it throws the classified
`Image Generation Failed: ...` error, which the catch block rethrows
unchanged. -/
theorem c2_success_only_on_valid_media (r : ModelResponse) :
    (∀ g, generateImageFlowV2Resp r = Except.ok g →
        ∃ m s, r.media = some m ∧ m.url = MediaUrl.str s ∧
          strStartsWith s "data:image/" = true ∧ g = { imageUrl := s }) ∧
    ((¬ ∃ m s, r.media = some m ∧ m.url = MediaUrl.str s ∧
        strStartsWith s "data:image/" = true) →
      generateImageFlowV2Resp r =
        Except.error ("Image Generation Failed: " ++ detailForErrorV2 r)) := by
  constructor
  · intro g hg
    exact (validateMediaV2_some_iff r g).mp ((flowV2Resp_ok_iff r g).mp hg)
  · intro hno
    have hv := (validateMediaV2_none_iff r).mpr hno
    unfold generateImageFlowV2Resp
    rw [hv]
    simp [rethrowOrWrap_classified]

/-- C10: the two revisions agree on the success path: the same media test,
the same success value, success exactly when `media.url` is a string
starting with `data:image/`. -/
theorem c10_revisions_agree (r : ModelResponse) :
    validateMediaV1 r = validateMediaV2 r ∧
    (∀ g, generateImageFlowV1Resp r = Except.ok g ↔
        generateImageFlowV2Resp r = Except.ok g) ∧
    ((∃ g, generateImageFlowV1Resp r = Except.ok g) ↔
      ∃ m s, r.media = some m ∧ m.url = MediaUrl.str s ∧
        strStartsWith s "data:image/" = true) := by
  have hv : validateMediaV1 r = validateMediaV2 r := rfl
  refine ⟨hv, fun g => ?_, ?_⟩
  · rw [flowV1Resp_ok_iff, flowV2Resp_ok_iff, hv]
  · constructor
    · rintro ⟨g, hg⟩
      obtain ⟨m, s, hm, hu, hp, _⟩ :=
        (validateMediaV2_some_iff r g).mp (hv.symm.trans ((flowV1Resp_ok_iff r g).mp hg))
      exact ⟨m, s, hm, hu, hp⟩
    · rintro ⟨m, s, hm, hu, hp⟩
      exact ⟨{ imageUrl := s }, (flowV1Resp_ok_iff r _).mpr
        (hv.trans ((validateMediaV2_some_iff r _).mpr ⟨m, s, hm, hu, hp, rfl⟩))⟩

theorem detailForErrorV2_error (r : ModelResponse) (e : ErrorInfo)
    (he : r.error = some e) :
    detailForErrorV2 r =
      "The AI service returned a direct error: " ++ errMessageV2 e ++
        ". Please critically review your GOOGLE_API_KEY, ensure billing is active, and required Google Cloud APIs (like Vertex AI) are enabled. Check server logs for the full response." := by
  unfold detailForErrorV2
  rw [he]

/-- C3 (amended): when the response carries a top-level `error` object, the
later revision's classifier surfaces it ahead of any candidate-based
reasoning — the detail embeds the error's message, its status when present,
and its code when present and nonzero; the `candidates` field has no effect
on the detail. -/
theorem c3_direct_error_priority (r : ModelResponse) (e : ErrorInfo)
    (he : r.error = some e) :
    detailForErrorV2 r =
      "The AI service returned a direct error: " ++ errMessageV2 e ++
        ". Please critically review your GOOGLE_API_KEY, ensure billing is active, and required Google Cloud APIs (like Vertex AI) are enabled. Check server logs for the full response." ∧
    (∀ m, e.message = some m → SubStr m (detailForErrorV2 r)) ∧
    (∀ st, e.status = some st → SubStr st (detailForErrorV2 r)) ∧
    (∀ cd, e.code = some cd → cd ≠ 0 → SubStr (Nat.repr cd) (detailForErrorV2 r)) ∧
    (∀ cands, detailForErrorV2 { r with candidates := cands } = detailForErrorV2 r) := by
  have hd := detailForErrorV2_error r e he
  refine ⟨hd, ?_, ?_, ?_, ?_⟩
  · intro m hm
    rw [hd]
    refine subStr_append_right _ (subStr_append_left _ ?_)
    by_cases hme : m = ""
    · subst hme; exact subStr_empty _
    · simp only [errMessageV2, hm]
      rw [if_pos hme]
      exact subStr_append_right _ (subStr_append_right _ (subStr_self m))
  · intro st hst
    rw [hd]
    refine subStr_append_right _ (subStr_append_left _ ?_)
    by_cases hse : st = ""
    · subst hse; exact subStr_empty _
    · simp only [errMessageV2, hst]
      rw [if_pos hse]
      exact subStr_append_right _ (subStr_append_left _
        (subStr_append_right _ (subStr_append_left _ (subStr_self st))))
  · intro cd hcd hne
    rw [hd]
    refine subStr_append_right _ (subStr_append_left _ ?_)
    simp only [errMessageV2, hcd]
    rw [if_pos hne]
    exact subStr_append_left _ (subStr_append_right _
      (subStr_append_left _ (subStr_self _)))
  · intro cands
    rw [detailForErrorV2_error { r with candidates := cands } e he,
        detailForErrorV2_error r e he]

/-- An error object whose `code` is present but `0` (falsy in JavaScript). -/
def c3ZeroCodeResponse : ModelResponse :=
  { media := none, candidates := some [],
    error := some { message := some "quota exceeded", status := none, code := some 0 } }

set_option maxRecDepth 8192 in
/-- Counterexample to C3 as stated: the error's `code` is present (`0`), yet
its text appears nowhere in the classified detail, because the source guards
the code with a JavaScript truthiness test and `0` is falsy. -/
theorem c3_zero_code_not_surfaced :
    c3ZeroCodeResponse.error =
      some { message := some "quota exceeded", status := none, code := some 0 } ∧
    ¬ SubStr (Nat.repr 0) (detailForErrorV2 c3ZeroCodeResponse) ∧
    SubStr "quota exceeded" (detailForErrorV2 c3ZeroCodeResponse) := by
  decide

/-- Scenario E of the spec, with a candidate present to show independence. -/
def c3ScenarioE : ModelResponse :=
  { media := none,
    candidates := some [{ finishReason := some "STOP", finishMessage := none }],
    error := some { message := some "quota exceeded", status := none, code := some 429 } }

/-- Witness for C3 at scenario E: the detail embeds `quota exceeded` and
`429`, and changing the candidates does not change the detail. -/
theorem c3_direct_error_priority_witness :
    SubStr "quota exceeded" (detailForErrorV2 c3ScenarioE) ∧
    SubStr (Nat.repr 429) (detailForErrorV2 c3ScenarioE) ∧
    detailForErrorV2 { c3ScenarioE with candidates := none } =
      detailForErrorV2 c3ScenarioE :=
  ⟨(c3_direct_error_priority c3ScenarioE _ rfl).2.1 "quota exceeded" rfl,
   (c3_direct_error_priority c3ScenarioE _ rfl).2.2.2.1 429 rfl (by decide),
   (c3_direct_error_priority c3ScenarioE _ rfl).2.2.2.2 none⟩

/-- C5 (amended): with no media, no top-level error and a first candidate
whose `finishReason` is truthy and neither of the source's two sentinels
`STOP` and `UNSPECIFIED`, the classified detail embeds the finish reason,
and the finish message whenever one is present. -/
theorem c5_finish_reason_reported (r : ModelResponse) (c : Candidate)
    (cs : List Candidate) (fr : String)
    (hm : r.media = none) (he : r.error = none) (hc : r.candidates = some (c :: cs))
    (hfr : c.finishReason = some fr)
    (h1 : fr ≠ "") (h2 : fr ≠ "STOP") (h3 : fr ≠ "UNSPECIFIED") :
    SubStr fr (detailForErrorV2 r) ∧
    (∀ fm, c.finishMessage = some fm → SubStr fm (detailForErrorV2 r)) := by
  have hd : detailForErrorV2 r =
      "The AI model did not return any media content." ++
        (" " ++ candidateSpecificMessageV2 c ++
          " This often relates to safety filters or prompt content. Also, re-verify API key/billing. Please check server logs.") := by
    unfold detailForErrorV2
    rw [he, hm, hc]
  have hcm : candidateSpecificMessageV2 c =
      "Model processing stopped (reason: " ++ fr ++
        (match c.finishMessage with
         | some finishMessage =>
           if finishMessage ≠ "" then " - \"" ++ finishMessage ++ "\"" else ""
         | none => "") ++ ")." := by
    unfold candidateSpecificMessageV2
    simp only [hfr]
    rw [if_pos ⟨h1, h2, h3⟩]
  constructor
  · rw [hd, hcm]
    exact subStr_append_left _ (subStr_append_right _ (subStr_append_left _
      (subStr_append_right _ (subStr_append_right _
        (subStr_append_left _ (subStr_self fr))))))
  · intro fm hfm
    by_cases hfe : fm = ""
    · subst hfe; exact subStr_empty _
    · rw [hd, hcm]
      simp only [hfm]
      rw [if_pos hfe]
      exact subStr_append_left _ (subStr_append_right _ (subStr_append_left _
        (subStr_append_right _ (subStr_append_left _ (subStr_append_right _
          (subStr_append_left _ (subStr_self fm)))))))

/-- A first candidate stopped with `UNSPECIFIED` and a finish message. -/
def c5Unspecified : ModelResponse :=
  { media := none,
    candidates := some [{ finishReason := some "UNSPECIFIED", finishMessage := some "blocked" }],
    error := none }

set_option maxRecDepth 8192 in
/-- Counterexample to C5 as stated: `UNSPECIFIED` is present and differs from
the normal-stop sentinel `STOP`, yet the classifier treats it like a normal
stop and reports neither it nor the finish message. -/
theorem c5_unspecified_not_reported :
    c5Unspecified.candidates =
      some [{ finishReason := some "UNSPECIFIED", finishMessage := some "blocked" }] ∧
    ¬ SubStr "UNSPECIFIED" (detailForErrorV2 c5Unspecified) ∧
    ¬ SubStr "blocked" (detailForErrorV2 c5Unspecified) := by
  decide

/-- Scenario B of the spec: a safety-filtered candidate. -/
def c5ScenarioB : ModelResponse :=
  { media := none,
    candidates := some [{ finishReason := some "SAFETY", finishMessage := some "blocked" }],
    error := none }

/-- Witness for C5 at scenario B: the detail mentions `SAFETY` and `blocked`. -/
theorem c5_finish_reason_reported_witness :
    SubStr "SAFETY" (detailForErrorV2 c5ScenarioB) ∧
    SubStr "blocked" (detailForErrorV2 c5ScenarioB) :=
  ⟨(c5_finish_reason_reported c5ScenarioB
      { finishReason := some "SAFETY", finishMessage := some "blocked" } [] "SAFETY"
      rfl rfl rfl rfl (by decide) (by decide) (by decide)).1,
   (c5_finish_reason_reported c5ScenarioB
      { finishReason := some "SAFETY", finishMessage := some "blocked" } [] "SAFETY"
      rfl rfl rfl rfl (by decide) (by decide) (by decide)).2 "blocked" rfl⟩

set_option maxRecDepth 8192 in
/-- C4: with no media and no top-level error, the later revision fails with
the classified error, and the three candidate cases (present-nonempty,
present-empty, missing/malformed) give pairwise distinct details; the
missing/malformed detail names `GOOGLE_API_KEY` and billing as the likely
remediation. -/
theorem c4_three_distinct_no_media (r1 r2 r3 : ModelResponse)
    (c : Candidate) (cs : List Candidate)
    (h1m : r1.media = none) (h1e : r1.error = none) (h1c : r1.candidates = some (c :: cs))
    (h2m : r2.media = none) (h2e : r2.error = none) (h2c : r2.candidates = some [])
    (h3m : r3.media = none) (h3e : r3.error = none) (h3c : r3.candidates = none) :
    generateImageFlowV2Resp r1 =
      Except.error ("Image Generation Failed: " ++ detailForErrorV2 r1) ∧
    generateImageFlowV2Resp r2 =
      Except.error ("Image Generation Failed: " ++ detailForErrorV2 r2) ∧
    generateImageFlowV2Resp r3 =
      Except.error ("Image Generation Failed: " ++ detailForErrorV2 r3) ∧
    detailForErrorV2 r1 ≠ detailForErrorV2 r2 ∧
    detailForErrorV2 r1 ≠ detailForErrorV2 r3 ∧
    detailForErrorV2 r2 ≠ detailForErrorV2 r3 ∧
    SubStr "GOOGLE_API_KEY" (detailForErrorV2 r3) ∧
    SubStr "billing" (detailForErrorV2 r3) := by
  have fe : ∀ r : ModelResponse, r.media = none →
      generateImageFlowV2Resp r =
        Except.error ("Image Generation Failed: " ++ detailForErrorV2 r) := by
    intro r hr
    have hv : validateMediaV2 r = none := by
      unfold validateMediaV2; rw [hr]
    unfold generateImageFlowV2Resp
    rw [hv]
    simp [rethrowOrWrap_classified]
  have d1 : detailForErrorV2 r1 =
      "The AI model did not return any media content." ++
        (" " ++ candidateSpecificMessageV2 c ++
          " This often relates to safety filters or prompt content. Also, re-verify API key/billing. Please check server logs.") := by
    unfold detailForErrorV2; rw [h1e, h1m, h1c]
  have d2 : detailForErrorV2 r2 =
      "The AI model did not return any media content." ++
        " The model returned no candidates/choices in its response (e.g., all candidates might have been filtered by safety settings). This could indicate a problem with the prompt content or very strict safety settings. Check server logs." := by
    unfold detailForErrorV2; rw [h2e, h2m, h2c]
  have d3 : detailForErrorV2 r3 =
      "The AI model did not return any media content." ++
        " The AI response was incomplete or structured unexpectedly (e.g., missing \x27candidates\x27 data). This strongly suggests an issue with your GOOGLE_API_KEY, billing status, or enabled Google Cloud APIs. Please verify these and check server logs for the raw response." := by
    unfold detailForErrorV2; rw [h3e, h3m, h3c]
  have hT1 : (19 : Nat) ≤
      (" This often relates to safety filters or prompt content. Also, re-verify API key/billing. Please check server logs." : String).data.length := by
    decide
  have hY1 : (19 : Nat) ≤
      ((" " ++ candidateSpecificMessageV2 c ++
        " This often relates to safety filters or prompt content. Also, re-verify API key/billing. Please check server logs.") : String).data.length := by
    rw [String.data_append, List.length_append]
    omega
  have l1 : lastChars 19 (detailForErrorV2 r1) =
      lastChars 19 " This often relates to safety filters or prompt content. Also, re-verify API key/billing. Please check server logs." := by
    rw [d1, lastChars_append _ _ _ hY1, lastChars_append _ _ _ hT1]
  have hT2 : (19 : Nat) ≤
      (" The model returned no candidates/choices in its response (e.g., all candidates might have been filtered by safety settings). This could indicate a problem with the prompt content or very strict safety settings. Check server logs." : String).data.length := by
    decide
  have l2 : lastChars 19 (detailForErrorV2 r2) =
      lastChars 19 " The model returned no candidates/choices in its response (e.g., all candidates might have been filtered by safety settings). This could indicate a problem with the prompt content or very strict safety settings. Check server logs." := by
    rw [d2, lastChars_append _ _ _ hT2]
  have hT3 : (19 : Nat) ≤
      (" The AI response was incomplete or structured unexpectedly (e.g., missing \x27candidates\x27 data). This strongly suggests an issue with your GOOGLE_API_KEY, billing status, or enabled Google Cloud APIs. Please verify these and check server logs for the raw response." : String).data.length := by
    decide
  have l3 : lastChars 19 (detailForErrorV2 r3) =
      lastChars 19 " The AI response was incomplete or structured unexpectedly (e.g., missing \x27candidates\x27 data). This strongly suggests an issue with your GOOGLE_API_KEY, billing status, or enabled Google Cloud APIs. Please verify these and check server logs for the raw response." := by
    rw [d3, lastChars_append _ _ _ hT3]
  have ne12 : detailForErrorV2 r1 ≠ detailForErrorV2 r2 := by
    apply ne_of_lastChars_ne 19
    rw [l1, l2]
    decide
  have ne13 : detailForErrorV2 r1 ≠ detailForErrorV2 r3 := by
    apply ne_of_lastChars_ne 19
    rw [l1, l3]
    decide
  have ne23 : detailForErrorV2 r2 ≠ detailForErrorV2 r3 := by
    apply ne_of_lastChars_ne 19
    rw [l2, l3]
    decide
  have s1 : SubStr "GOOGLE_API_KEY" (detailForErrorV2 r3) := by
    rw [d3]; decide
  have s2 : SubStr "billing" (detailForErrorV2 r3) := by
    rw [d3]; decide
  exact ⟨fe r1 h1m, fe r2 h2m, fe r3 h3m, ne12, ne13, ne23, s1, s2⟩

/-- A no-media response with one safety-stopped candidate. -/
def c4NoMediaWithCandidate : ModelResponse :=
  { media := none,
    candidates := some [{ finishReason := some "SAFETY", finishMessage := none }],
    error := none }

/-- A no-media response with an empty candidates array. -/
def c4NoMediaEmptyCandidates : ModelResponse :=
  { media := none, candidates := some [], error := none }

/-- A no-media response with the candidates field missing. -/
def c4NoMediaNoCandidates : ModelResponse :=
  { media := none, candidates := none, error := none }

/-- Witness for C4 at three concrete no-media responses. -/
theorem c4_three_distinct_no_media_witness :
    detailForErrorV2 c4NoMediaWithCandidate ≠ detailForErrorV2 c4NoMediaEmptyCandidates ∧
    detailForErrorV2 c4NoMediaEmptyCandidates ≠ detailForErrorV2 c4NoMediaNoCandidates ∧
    SubStr "GOOGLE_API_KEY" (detailForErrorV2 c4NoMediaNoCandidates) :=
  ⟨(c4_three_distinct_no_media c4NoMediaWithCandidate c4NoMediaEmptyCandidates
      c4NoMediaNoCandidates { finishReason := some "SAFETY", finishMessage := none } []
      rfl rfl rfl rfl rfl rfl rfl rfl rfl).2.2.2.1,
   (c4_three_distinct_no_media c4NoMediaWithCandidate c4NoMediaEmptyCandidates
      c4NoMediaNoCandidates { finishReason := some "SAFETY", finishMessage := none } []
      rfl rfl rfl rfl rfl rfl rfl rfl rfl).2.2.2.2.2.1,
   (c4_three_distinct_no_media c4NoMediaWithCandidate c4NoMediaEmptyCandidates
      c4NoMediaNoCandidates { finishReason := some "SAFETY", finishMessage := none } []
      rfl rfl rfl rfl rfl rfl rfl rfl rfl).2.2.2.2.2.2.1⟩

/-- C6 (amended): an exception from the model round trip whose message starts
with the classified `Image Generation Failed:` marker is propagated
unchanged; every other exception is wrapped exactly once with the
`AI Service Error: ` marker (a falsy message is replaced by a fallback).
Only the classified marker is recognised, so a message already bearing the
service-error marker is wrapped again (see the counterexample). -/
theorem c6_wrap_policy (m : String) :
    (strStartsWith m "Image Generation Failed:" = true →
      generateImageFlowV2 (InvokeOutcome.thrown (some m)) = Except.error m) ∧
    (strStartsWith m "Image Generation Failed:" = false → m ≠ "" →
      generateImageFlowV2 (InvokeOutcome.thrown (some m)) =
        Except.error ("AI Service Error: " ++ m)) ∧
    generateImageFlowV2 (InvokeOutcome.thrown none) =
      Except.error
        ("AI Service Error: " ++ "An unknown error occurred while communicating with the AI model.") := by
  refine ⟨?_, ?_, rfl⟩
  · intro h
    simp [generateImageFlowV2, rethrowOrWrap, h]
  · intro h hne
    simp [generateImageFlowV2, rethrowOrWrap, h, hne]

set_option maxRecDepth 8192 in
/-- Counterexample to C6 as stated: a round-trip exception whose message is
already one of this system's own error messages (it bears the service-error
marker) is not propagated unchanged but wrapped a second time, so the caller
receives a message carrying the `AI Service Error:` marker twice. -/
theorem c6_double_wrap :
    generateImageFlowV2 (InvokeOutcome.thrown (some "AI Service Error: network timeout")) =
      Except.error "AI Service Error: AI Service Error: network timeout" ∧
    rethrowOrWrap (some "AI Service Error: network timeout") ≠
      "AI Service Error: network timeout" ∧
    strStartsWith
      (String.mk ((rethrowOrWrap (some "AI Service Error: network timeout")).data.drop 18))
      "AI Service Error:" = true := by
  refine ⟨rfl, by decide, by decide⟩

/-- Witness for C6: the classified message passes through unchanged, a plain
message is wrapped once. -/
theorem c6_wrap_policy_witness :
    generateImageFlowV2 (InvokeOutcome.thrown (some "Image Generation Failed: no media")) =
      Except.error "Image Generation Failed: no media" ∧
    generateImageFlowV2 (InvokeOutcome.thrown (some "socket hang up")) =
      Except.error ("AI Service Error: " ++ "socket hang up") :=
  ⟨(c6_wrap_policy "Image Generation Failed: no media").1 (by decide),
   (c6_wrap_policy "socket hang up").2.1 (by decide) (by decide)⟩

/-- C7 (amended): a round-trip exception that is wrapped as a service error
has its full message forwarded to the caller — the wrapped message is the
fixed 18-character marker followed by the entire underlying message, with no
truncation or bounding. -/
theorem c7_full_message_forwarded (m : String)
    (h : strStartsWith m "Image Generation Failed:" = false) (hne : m ≠ "") :
    generateImageFlowV2 (InvokeOutcome.thrown (some m)) =
      Except.error ("AI Service Error: " ++ m) ∧
    SubStr m (rethrowOrWrap (some m)) ∧
    (rethrowOrWrap (some m)).length = 18 + m.length := by
  have hr : rethrowOrWrap (some m) = "AI Service Error: " ++ m := by
    simp [rethrowOrWrap, h, hne]
  refine ⟨?_, ?_, ?_⟩
  · simp [generateImageFlowV2, hr]
  · rw [hr]
    exact subStr_append_left _ (subStr_self m)
  · rw [hr, String.length_append]
    rfl

/-- A 100-character underlying exception message. -/
def c7LongMessage : String := String.mk (List.replicate 100 'a')

set_option maxRecDepth 8192 in
/-- Counterexample to C7 as stated: a long underlying message is forwarded to
the caller in full — the wrapped error contains all 100 characters and its
length grows with the message, so no bounded-length summary is taken. -/
theorem c7_unbounded_forwarding :
    rethrowOrWrap (some c7LongMessage) = "AI Service Error: " ++ c7LongMessage ∧
    SubStr c7LongMessage (rethrowOrWrap (some c7LongMessage)) ∧
    (rethrowOrWrap (some c7LongMessage)).length = 118 := by
  decide

/-- Witness for C7 at the 100-character message. -/
theorem c7_full_message_forwarded_witness :
    generateImageFlowV2 (InvokeOutcome.thrown (some c7LongMessage)) =
      Except.error ("AI Service Error: " ++ c7LongMessage) ∧
    SubStr c7LongMessage (rethrowOrWrap (some c7LongMessage)) ∧
    (rethrowOrWrap (some c7LongMessage)).length = 18 + c7LongMessage.length :=
  c7_full_message_forwarded c7LongMessage (by decide) (by decide)

/-- C8 (spec-modelled): with the required credential absent from the
environment, the orchestration fails fast with the configuration error
naming `GOOGLE_API_KEY`, and the model invoker runs zero times. -/
theorem c8_missing_credential_failfast (env : List (String × String))
    (o : InvokeOutcome) (h : env.lookup "GOOGLE_API_KEY" = none) :
    generateWithConfig env o = (Except.error missingCredentialMessage, 0) ∧
    SubStr "GOOGLE_API_KEY" missingCredentialMessage := by
  constructor
  · unfold generateWithConfig checkApiCredential
    rw [h]
  · decide

/-- Witness for C8 at the empty environment. -/
theorem c8_missing_credential_failfast_witness :
    generateWithConfig [] (InvokeOutcome.thrown none) =
      (Except.error missingCredentialMessage, 0) ∧
    SubStr "GOOGLE_API_KEY" missingCredentialMessage :=
  c8_missing_credential_failfast [] (InvokeOutcome.thrown none) rfl

/-- C9 (amended): the later revision's composed prompt is a pure function of
the request's fields; it embeds the user prompt, the whole fixed ordered
quality-descriptor list (prepended before the quoted user prompt, not
appended after it) and the aspect ratio, and an absent aspect ratio composes
exactly like `1:1`. -/
theorem c9_compose_pure (i j : GenerateImageInput) (p : String)
    (hp : i.prompt = j.prompt) (ha : i.aspectRatio = j.aspectRatio) :
    fullPromptV2 i = fullPromptV2 j ∧
    SubStr i.prompt (fullPromptV2 i) ∧
    SubStr desiredQualitiesJoined (fullPromptV2 i) ∧
    SubStr (aspectRatioOr1x1 i) (fullPromptV2 i) ∧
    fullPromptV2 { prompt := p, aspectRatio := none } =
      fullPromptV2 { prompt := p, aspectRatio := some "1:1" } := by
  refine ⟨?_, ?_, ?_, ?_, rfl⟩
  · unfold fullPromptV2 aspectRatioOr1x1
    rw [hp, ha]
  · unfold fullPromptV2
    exact subStr_append_right _ (subStr_append_right _
      (subStr_append_left _ (subStr_self _)))
  · unfold fullPromptV2
    exact subStr_append_right _ (subStr_append_right _ (subStr_append_right _
      (subStr_append_right _ (subStr_append_left _ (subStr_self _)))))
  · unfold fullPromptV2
    exact subStr_append_left _ (subStr_self _)

/-- Scenario A's request. -/
def c9ScenarioAInput : GenerateImageInput :=
  { prompt := "a red fox", aspectRatio := some "16:9" }

set_option maxRecDepth 8192 in
/-- Counterexample to C9 as stated: the composed prompt is not obtained by
appending the quality descriptors to the user prompt — it does not begin
with the user prompt at all; the descriptors come first and the quoted user
prompt follows them. -/
theorem c9_descriptors_precede :
    fullPromptV2 c9ScenarioAInput =
      "Image requirements: outstanding, eye-catching, vibrant, youthful, attention-grabbing, attractive, hookable, photorealistic, highly detailed, high quality, professional photography, dynamic composition, cinematic lighting. User prompt: \"a red fox\". Aspect ratio: 16:9" ∧
    strStartsWith (fullPromptV2 c9ScenarioAInput) "a red fox" = false ∧
    strStartsWith (fullPromptV2 c9ScenarioAInput) "Image requirements: outstanding" = true := by
  decide

/-- Witness for C9 at scenario A's request. -/
theorem c9_compose_pure_witness :
    fullPromptV2 c9ScenarioAInput =
      fullPromptV2 { prompt := "a red fox", aspectRatio := some "16:9" } ∧
    SubStr c9ScenarioAInput.prompt (fullPromptV2 c9ScenarioAInput) ∧
    SubStr desiredQualitiesJoined (fullPromptV2 c9ScenarioAInput) ∧
    SubStr (aspectRatioOr1x1 c9ScenarioAInput) (fullPromptV2 c9ScenarioAInput) ∧
    fullPromptV2 { prompt := "x", aspectRatio := none } =
      fullPromptV2 { prompt := "x", aspectRatio := some "1:1" } :=
  c9_compose_pure c9ScenarioAInput
    { prompt := "a red fox", aspectRatio := some "16:9" } "x" rfl rfl
